import Mathlib

/-!
Verification of the Vertical Car Runner simulation core (`game.js`).

The definitions below are a shallow embedding of the JavaScript source:
continuous quantities (pixel coordinates, speeds, millisecond timestamps)
become rationals, lane indices and scores become naturals, the
`Math.random()` stream becomes an explicit list of natural-number draws
(`Math.floor(r * n)` for `r ∈ [0,1)` is modelled as `draw % n`, which has
the same range), and `localStorage` becomes an `Option ℕ` threaded through
the step.  Each definition mirrors the statements of the corresponding
source function in the same order.
-/

namespace Game

/-- Source: `canvas.width = 360` (game.js line 16). -/
def canvasWidth : ℚ := 360

/-- Source: `canvas.height = 640` (game.js line 17). -/
def canvasHeight : ℚ := 640

/-- Source: `carSize = { width: 60, height: 100 }`. -/
def carWidth : ℚ := 60

def carHeight : ℚ := 100

/-- Source: `obstacleSize = { width: 80, height: 80 }`. -/
def obstacleWidth : ℚ := 80

def obstacleHeight : ℚ := 80

/-- Source `computeLanes`: `laneWidth = canvas.width / laneCount;
lanesX = [laneWidth * (i + 0.5) | i < laneCount]`. -/
def computeLanes (laneCount : ℕ) : List ℚ :=
  (List.range laneCount).map (fun i => (canvasWidth / laneCount) * (i + 0.5))

/-- The player car: `{ lane, x, y, width, height, color }`. -/
structure Car where
  lane : ℕ
  x : ℚ
  y : ℚ
  width : ℚ
  height : ℚ
  color : String
deriving DecidableEq, Repr

/-- An obstacle: `{ lane, x, y, width, height, color, scored }`. -/
structure Obstacle where
  lane : ℕ
  x : ℚ
  y : ℚ
  width : ℚ
  height : ℚ
  color : String
  scored : Bool
deriving DecidableEq, Repr

/-- An axis-aligned rectangle as consumed by `rectsIntersect` (the JS
function is duck-typed over anything with `x`, `y`, `width`, `height`). -/
structure Rect where
  x : ℚ
  y : ℚ
  width : ℚ
  height : ℚ
deriving DecidableEq, Repr

def Car.rect (c : Car) : Rect := ⟨c.x, c.y, c.width, c.height⟩

def Obstacle.rect (o : Obstacle) : Rect := ⟨o.x, o.y, o.width, o.height⟩

/-- Source `rectsIntersect(a, b)`:
`|a.x - b.x| < (a.width + b.width) / 2 && |a.y - b.y| < (a.height + b.height) / 2`. -/
def rectsIntersect (a b : Rect) : Bool :=
  decide (|a.x - b.x| < (a.width + b.width) / 2) &&
  decide (|a.y - b.y| < (a.height + b.height) / 2)

/-- The module-level mutable game variables of `game.js`. -/
structure GameState where
  laneCount : ℕ
  lanesX : List ℚ
  car : Car
  obstacles : List Obstacle
  speed : ℚ
  spawnObstacleInterval : ℚ
  lastObstacleSpawn : ℚ
  lastSpeedIncrease : ℚ
  score : ℕ
  highScore : ℕ
  gameOver : Bool
  extraLaneAdded : Bool
  obstaclesPerSpawn : ℕ
  dashOffset : ℚ
deriving DecidableEq, Repr

/-- The game state together with the external collaborators: persisted
high score (`localStorage`, a single optional natural) and the stream of
pending random draws. -/
structure World where
  s : GameState
  storage : Option ℕ
  rs : List ℕ
deriving DecidableEq, Repr

/-- One draw from the random stream (an exhausted stream yields 0). -/
def rngNext : List ℕ → ℕ × List ℕ
  | [] => (0, [])
  | a :: t => (a, t)

/-- Source: the three-element `colors` array of `spawnSingleObstacle`. -/
def obstacleColors : List String := ["#ef476f", "#ffd166", "#06d6a0"]

/-- Source `spawnSingleObstacle(lane)`: picks a random color and pushes
`{ lane, x: lanesX[lane], y: -obstacleSize.height, width, height, color,
scored: false }`.  Returns the new obstacle and the remaining draws. -/
def spawnSingleObstacle (lanesX : List ℚ) (lane : ℕ) (rs : List ℕ) :
    Obstacle × List ℕ :=
  let c := rngNext rs
  let color := obstacleColors.getD (c.1 % obstacleColors.length) ""
  (⟨lane, lanesX.getD lane 0, -obstacleHeight, obstacleWidth, obstacleHeight,
    color, false⟩, c.2)

/-- The loop body of `spawnObstacle`: `count` times, draw
`idx = floor(random * availableLanes.length)`, splice that lane out and
spawn an obstacle in it. -/
def spawnLoop (lanesX : List ℚ) : ℕ → List ℕ → List ℕ → List Obstacle × List ℕ
  | 0, _, rs => ([], rs)
  | n + 1, avail, rs =>
    let c := rngNext rs
    let idx := c.1 % avail.length
    let lane := avail.getD idx 0
    let p := spawnSingleObstacle lanesX lane c.2
    let q := spawnLoop lanesX n (avail.eraseIdx idx) p.2
    (p.1 :: q.1, q.2)

/-- Source `spawnObstacle()`: `availableLanes = [0, …, laneCount-1]`,
`count = min(obstaclesPerSpawn, laneCount)`, then spawn `count` obstacles
into lanes chosen without repetition. -/
def spawnObstacle (s : GameState) (rs : List ℕ) : GameState × List ℕ :=
  let availableLanes := List.range s.laneCount
  let count := min s.obstaclesPerSpawn s.laneCount
  let p := spawnLoop s.lanesX count availableLanes rs
  ({ s with obstacles := s.obstacles ++ p.1 }, p.2)

/-- The body of the `obstacles.forEach` in `update`: `o.y += speed;` then
`if (!o.scored && o.y - o.height / 2 > car.y + car.height / 2)
{ score++; o.scored = true; }`.  The second component is the score
increment contributed by this obstacle (0 or 1). -/
def stepObstacle (car : Car) (speed : ℚ) (o : Obstacle) : Obstacle × ℕ :=
  let o2 : Obstacle := { o with y := o.y + speed }
  if o2.scored = false ∧ car.y + car.height / 2 < o2.y - o2.height / 2 then
    ({ o2 with scored := true }, 1)
  else
    (o2, 0)

/-- The whole `obstacles.forEach` pass of `update`: every obstacle is
advanced and (possibly) scored, in order; the second component is the
total score increment of the pass. -/
def moveScore (car : Car) (speed : ℚ) : List Obstacle → List Obstacle × ℕ
  | [] => ([], 0)
  | o :: t =>
    let p := stepObstacle car speed o
    let q := moveScore car speed t
    (p.1 :: q.1, p.2 + q.2)

/-- Source `triggerGameOver()`: if not already over, set `gameOver = true` and,
when `score > highScore`, update `highScore` and persist it. -/
def triggerGameOver (s : GameState) (storage : Option ℕ) :
    GameState × Option ℕ :=
  if s.gameOver then (s, storage)
  else
    let s2 := { s with gameOver := true }
    if s2.highScore < s2.score then
      ({ s2 with highScore := s2.score }, some s2.score)
    else
      (s2, storage)

/-- The dynamic-difficulty block at the end of `update`:
`if (!extraLaneAdded && score >= 60) { laneCount = 4; computeLanes();
car.lane = min(car.lane, laneCount - 1); car.x = lanesX[car.lane];
obstaclesPerSpawn = 2; extraLaneAdded = true; }`. -/
def escalate (s : GameState) : GameState :=
  if s.extraLaneAdded = false ∧ 60 ≤ s.score then
    let lanesX2 := computeLanes 4
    let newCarLane := min s.car.lane (4 - 1)
    { s with
      laneCount := 4
      lanesX := lanesX2
      car := { s.car with lane := newCarLane, x := lanesX2.getD newCarLane 0 }
      obstaclesPerSpawn := 2
      extraLaneAdded := true }
  else s

/-- Stage 1 of `update`: `if (now - lastObstacleSpawn >= spawnObstacleInterval)
{ spawnObstacle(); lastObstacleSpawn = now; }`. -/
def spawnStage (now : ℚ) (w : World) : World :=
  if w.s.spawnObstacleInterval ≤ now - w.s.lastObstacleSpawn then
    let p := spawnObstacle w.s w.rs
    { w with s := { p.1 with lastObstacleSpawn := now }, rs := p.2 }
  else w

/-- Stage 2 of `update`: `if (now - lastSpeedIncrease >= 5000)
{ speed += 0.5; lastSpeedIncrease = now; }`. -/
def rampStage (now : ℚ) (w : World) : World :=
  if (5000 : ℚ) ≤ now - w.s.lastSpeedIncrease then
    { w with s := { w.s with
        speed := w.s.speed + 0.5, lastSpeedIncrease := now } }
  else w

/-- Stage 3 of `update`: the move-and-score `forEach` pass. -/
def moveScoreStage (w : World) : World :=
  let p := moveScore w.s.car w.s.speed w.s.obstacles
  { w with s := { w.s with obstacles := p.1, score := w.s.score + p.2 } }

/-- Stage 4 of `update`: `dashOffset += speed; if (dashOffset > 40)
dashOffset -= 40;`. -/
def dashStage (w : World) : World :=
  let d := w.s.dashOffset + w.s.speed
  { w with s := { w.s with dashOffset := if 40 < d then d - 40 else d } }

/-- Stage 5 of `update`:
`obstacles = obstacles.filter((o) => o.y - o.height < canvas.height)`. -/
def pruneStage (w : World) : World :=
  { w with s := { w.s with
      obstacles := w.s.obstacles.filter
        (fun o => decide (o.y - o.height < canvasHeight)) } }

/-- Stage 6 of `update`: iterate over the obstacles and call
`triggerGameOver()` on the first one intersecting the car (the loop
`break`s, so at most one call is made). -/
def collideStage (w : World) : World :=
  if w.s.obstacles.any (fun o => rectsIntersect w.s.car.rect o.rect) then
    let p := triggerGameOver w.s w.storage
    { w with s := p.1, storage := p.2 }
  else w

/-- Stage 7 of `update`: the dynamic-difficulty escalation block. -/
def escalateStage (w : World) : World := { w with s := escalate w.s }

/-- Source `update(delta)` of game.js, with the ambient `performance.now()` passed
in explicitly.  The body consists of the statements of the source in order:
spawn gate, speed ramp, move-and-score pass, dash-offset bookkeeping,
off-screen pruning, collision detection, difficulty escalation. -/
def update (now : ℚ) (w : World) : World :=
  let w1 :=
    if w.s.spawnObstacleInterval ≤ now - w.s.lastObstacleSpawn then
      let p := spawnObstacle w.s w.rs
      { w with s := { p.1 with lastObstacleSpawn := now }, rs := p.2 }
    else w
  let w2 :=
    if (5000 : ℚ) ≤ now - w1.s.lastSpeedIncrease then
      { w1 with s := { w1.s with
          speed := w1.s.speed + 0.5, lastSpeedIncrease := now } }
    else w1
  let p := moveScore w2.s.car w2.s.speed w2.s.obstacles
  let w3 := { w2 with s := { w2.s with
      obstacles := p.1, score := w2.s.score + p.2 } }
  let d := w3.s.dashOffset + w3.s.speed
  let w4 := { w3 with s := { w3.s with
      dashOffset := if 40 < d then d - 40 else d } }
  let w5 := { w4 with s := { w4.s with
      obstacles := w4.s.obstacles.filter
        (fun o => decide (o.y - o.height < canvasHeight)) } }
  let w6 :=
    if w5.s.obstacles.any (fun o => rectsIntersect w5.s.car.rect o.rect) then
      let q := triggerGameOver w5.s w5.storage
      { w5 with s := q.1, storage := q.2 }
    else w5
  { w6 with s := escalate w6.s }

/-- Source `moveLane(direction)`:
`newLane = Math.min(Math.max(car.lane + direction, 0), laneCount - 1);
if (newLane !== car.lane) { car.lane = newLane; car.x = lanesX[newLane]; }`. -/
def moveLane (direction : ℤ) (s : GameState) : GameState :=
  let newLane : ℕ :=
    (min (max ((s.car.lane : ℤ) + direction) 0) ((s.laneCount : ℤ) - 1)).toNat
  if newLane ≠ s.car.lane then
    { s with car := { s.car with lane := newLane, x := s.lanesX.getD newLane 0 } }
  else s

/-- Source `initGame()`.  `dash` is the value of the module-level `dashOffset`,
which `initGame` does not reset (it is 0 at the first initialization). -/
def initGame (now : ℚ) (stored : Option ℕ) (dash : ℚ) : GameState :=
  let lanesX0 := computeLanes 3
  { laneCount := 3
    lanesX := lanesX0
    car := { lane := 1, x := lanesX0.getD 1 0, y := canvasHeight - 120,
             width := carWidth, height := carHeight, color := "#4287f5" }
    obstacles := []
    speed := 3.0
    spawnObstacleInterval := 1000
    lastObstacleSpawn := now
    lastSpeedIncrease := now
    score := 0
    highScore := stored.getD 0
    gameOver := false
    extraLaneAdded := false
    obstaclesPerSpawn := 1
    dashOffset := dash }

/-- A whole run segment: fold `update` over a list of frame timestamps. -/
def runSteps (ts : List ℚ) (w : World) : World :=
  ts.foldl (fun w t => update t w) w

/-- Pure obstacle advance, `o.y += speed`, without the scoring check. -/
def moveObstacle (speed : ℚ) (o : Obstacle) : Obstacle :=
  { o with y := o.y + speed }

/-- The scoring check alone (no movement), as it applies to an obstacle
whose position has already been advanced. -/
def scoreOne (car : Car) (o : Obstacle) : Obstacle × ℕ :=
  if o.scored = false ∧ car.y + car.height / 2 < o.y - o.height / 2 then
    ({ o with scored := true }, 1)
  else (o, 0)

/-- A scoring-only pass over a list of already-moved obstacles. -/
def scoreList (car : Car) : List Obstacle → List Obstacle × ℕ
  | [] => ([], 0)
  | o :: t =>
    let p := scoreOne car o
    let q := scoreList car t
    (p.1 :: q.1, p.2 + q.2)

/-- A movement-only stage: advance every obstacle by `speed`. -/
def moveStage (w : World) : World :=
  { w with s := { w.s with
      obstacles := w.s.obstacles.map (moveObstacle w.s.speed) } }

/-- A scoring-only stage over the (already moved) obstacle list. -/
def scoreStage (w : World) : World :=
  let p := scoreList w.s.car w.s.obstacles
  { w with s := { w.s with obstacles := p.1, score := w.s.score + p.2 } }

/-- Modelled from the spec: the per-frame ordering the specification asserts
(spawn, then the whole Difficulty Controller — speed ramp and structural
escalation — then move, then score, then prune, then collide), to be
compared with `update`, whose escalation runs last. -/
def specOrderStep (now : ℚ) (w : World) : World :=
  collideStage (pruneStage (scoreStage (moveStage
    (escalateStage (rampStage now (spawnStage now w))))))

/-- A concrete mid-run state: score 59, one obstacle in lane 0 (center 60 of
the 3-lane layout) about to pass the car on this frame, no spawn or ramp
due.  The next `update` raises the score to 60 and fires the escalation. -/
def wEsc : World :=
  ⟨{ laneCount := 3
     lanesX := computeLanes 3
     car := { lane := 1, x := 180, y := 520, width := 60, height := 100,
              color := "#4287f5" }
     obstacles := [⟨0, 60, 620, 80, 80, "#ef476f", false⟩]
     speed := 3
     spawnObstacleInterval := 1000
     lastObstacleSpawn := 0
     lastSpeedIncrease := 0
     score := 59
     highScore := 0
     gameOver := false
     extraLaneAdded := false
     obstaclesPerSpawn := 1
     dashOffset := 0 }, none, []⟩

/-- A fresh session started at time 0 with no stored high score. -/
def wInit : World := ⟨initGame 0 none 0, none, []⟩

end Game

namespace Game

/-! ## Structural helper lemmas -/

theorem update_stages (now : ℚ) (w : World) :
    update now w =
      escalateStage (collideStage (pruneStage (dashStage
        (moveScoreStage (rampStage now (spawnStage now w)))))) := rfl

theorem spawnObstacle_fst (s : GameState) (rs : List ℕ) :
    (spawnObstacle s rs).1 = { s with obstacles := s.obstacles ++
      (spawnLoop s.lanesX (min s.obstaclesPerSpawn s.laneCount)
        (List.range s.laneCount) rs).1 } := rfl

theorem triggerGameOver_eq (s : GameState) (storage : Option ℕ) :
    triggerGameOver s storage =
      if s.gameOver then (s, storage)
      else if s.highScore < s.score then
        ({ s with gameOver := true, highScore := s.score }, some s.score)
      else ({ s with gameOver := true }, storage) := rfl

theorem escalate_eq (s : GameState) :
    escalate s =
      if s.extraLaneAdded = false ∧ 60 ≤ s.score then
        { s with
          laneCount := 4
          lanesX := computeLanes 4
          car := { s.car with
                   lane := min s.car.lane 3
                   x := (computeLanes 4).getD (min s.car.lane 3) 0 }
          obstaclesPerSpawn := 2
          extraLaneAdded := true }
      else s := rfl

theorem stepObstacle_eq (car : Car) (speed : ℚ) (o : Obstacle) :
    stepObstacle car speed o =
      if o.scored = false ∧ car.y + car.height / 2 < (o.y + speed) - o.height / 2
      then ({ o with y := o.y + speed, scored := true }, 1)
      else ({ o with y := o.y + speed }, 0) := rfl

theorem spawnStage_keeps (now : ℚ) (w : World) :
    (spawnStage now w).s.car = w.s.car ∧
    (spawnStage now w).s.laneCount = w.s.laneCount ∧
    (spawnStage now w).s.lanesX = w.s.lanesX ∧
    (spawnStage now w).s.speed = w.s.speed ∧
    (spawnStage now w).s.lastSpeedIncrease = w.s.lastSpeedIncrease ∧
    (spawnStage now w).s.score = w.s.score ∧
    (spawnStage now w).s.highScore = w.s.highScore ∧
    (spawnStage now w).s.gameOver = w.s.gameOver ∧
    (spawnStage now w).s.extraLaneAdded = w.s.extraLaneAdded ∧
    (spawnStage now w).s.obstaclesPerSpawn = w.s.obstaclesPerSpawn ∧
    (spawnStage now w).storage = w.storage := by
  unfold spawnStage
  split <;> exact ⟨rfl, rfl, rfl, rfl, rfl, rfl, rfl, rfl, rfl, rfl, rfl⟩

theorem rampStage_keeps (now : ℚ) (w : World) :
    (rampStage now w).s.car = w.s.car ∧
    (rampStage now w).s.laneCount = w.s.laneCount ∧
    (rampStage now w).s.lanesX = w.s.lanesX ∧
    (rampStage now w).s.obstacles = w.s.obstacles ∧
    (rampStage now w).s.score = w.s.score ∧
    (rampStage now w).s.highScore = w.s.highScore ∧
    (rampStage now w).s.gameOver = w.s.gameOver ∧
    (rampStage now w).s.extraLaneAdded = w.s.extraLaneAdded ∧
    (rampStage now w).s.obstaclesPerSpawn = w.s.obstaclesPerSpawn ∧
    (rampStage now w).storage = w.storage := by
  unfold rampStage
  split <;> exact ⟨rfl, rfl, rfl, rfl, rfl, rfl, rfl, rfl, rfl, rfl⟩

theorem rampStage_speed (now : ℚ) (w : World) :
    (rampStage now w).s.speed =
      (if (5000 : ℚ) ≤ now - w.s.lastSpeedIncrease
        then w.s.speed + 0.5 else w.s.speed) ∧
    (rampStage now w).s.lastSpeedIncrease =
      (if (5000 : ℚ) ≤ now - w.s.lastSpeedIncrease
        then now else w.s.lastSpeedIncrease) := by
  unfold rampStage
  split <;> simp_all

theorem moveScoreStage_eq (w : World) :
    moveScoreStage w = { w with s := { w.s with
      obstacles := (moveScore w.s.car w.s.speed w.s.obstacles).1,
      score := w.s.score + (moveScore w.s.car w.s.speed w.s.obstacles).2 } } := rfl

theorem dashStage_keeps (w : World) :
    (dashStage w).s.car = w.s.car ∧
    (dashStage w).s.laneCount = w.s.laneCount ∧
    (dashStage w).s.lanesX = w.s.lanesX ∧
    (dashStage w).s.obstacles = w.s.obstacles ∧
    (dashStage w).s.speed = w.s.speed ∧
    (dashStage w).s.lastSpeedIncrease = w.s.lastSpeedIncrease ∧
    (dashStage w).s.score = w.s.score ∧
    (dashStage w).s.highScore = w.s.highScore ∧
    (dashStage w).s.gameOver = w.s.gameOver ∧
    (dashStage w).s.extraLaneAdded = w.s.extraLaneAdded ∧
    (dashStage w).s.obstaclesPerSpawn = w.s.obstaclesPerSpawn ∧
    (dashStage w).storage = w.storage :=
  ⟨rfl, rfl, rfl, rfl, rfl, rfl, rfl, rfl, rfl, rfl, rfl, rfl⟩

theorem pruneStage_keeps (w : World) :
    (pruneStage w).s.car = w.s.car ∧
    (pruneStage w).s.laneCount = w.s.laneCount ∧
    (pruneStage w).s.lanesX = w.s.lanesX ∧
    (pruneStage w).s.speed = w.s.speed ∧
    (pruneStage w).s.lastSpeedIncrease = w.s.lastSpeedIncrease ∧
    (pruneStage w).s.score = w.s.score ∧
    (pruneStage w).s.highScore = w.s.highScore ∧
    (pruneStage w).s.gameOver = w.s.gameOver ∧
    (pruneStage w).s.extraLaneAdded = w.s.extraLaneAdded ∧
    (pruneStage w).s.obstaclesPerSpawn = w.s.obstaclesPerSpawn ∧
    (pruneStage w).storage = w.storage :=
  ⟨rfl, rfl, rfl, rfl, rfl, rfl, rfl, rfl, rfl, rfl, rfl⟩

theorem collideStage_keeps (w : World) :
    (collideStage w).s.car = w.s.car ∧
    (collideStage w).s.laneCount = w.s.laneCount ∧
    (collideStage w).s.lanesX = w.s.lanesX ∧
    (collideStage w).s.obstacles = w.s.obstacles ∧
    (collideStage w).s.speed = w.s.speed ∧
    (collideStage w).s.lastSpeedIncrease = w.s.lastSpeedIncrease ∧
    (collideStage w).s.score = w.s.score ∧
    (collideStage w).s.extraLaneAdded = w.s.extraLaneAdded ∧
    (collideStage w).s.obstaclesPerSpawn = w.s.obstaclesPerSpawn := by
  unfold collideStage triggerGameOver
  split
  · dsimp only
    split
    · exact ⟨rfl, rfl, rfl, rfl, rfl, rfl, rfl, rfl, rfl⟩
    · split
      · exact ⟨rfl, rfl, rfl, rfl, rfl, rfl, rfl, rfl, rfl⟩
      · exact ⟨rfl, rfl, rfl, rfl, rfl, rfl, rfl, rfl, rfl⟩
  · exact ⟨rfl, rfl, rfl, rfl, rfl, rfl, rfl, rfl, rfl⟩

theorem escalate_keeps (s : GameState) :
    (escalate s).score = s.score ∧
    (escalate s).speed = s.speed ∧
    (escalate s).obstacles = s.obstacles ∧
    (escalate s).gameOver = s.gameOver ∧
    (escalate s).highScore = s.highScore ∧
    (escalate s).lastSpeedIncrease = s.lastSpeedIncrease ∧
    (escalate s).spawnObstacleInterval = s.spawnObstacleInterval ∧
    (escalate s).lastObstacleSpawn = s.lastObstacleSpawn ∧
    (escalate s).car.y = s.car.y := by
  unfold escalate
  split <;> exact ⟨rfl, rfl, rfl, rfl, rfl, rfl, rfl, rfl, rfl⟩

theorem escalate_extra (s : GameState) :
    (escalate s).extraLaneAdded = (s.extraLaneAdded || decide (60 ≤ s.score)) := by
  unfold escalate
  split
  · rename_i h
    simp [h.1, h.2]
  · rename_i h
    cases hb : s.extraLaneAdded with
    | true => simp [hb]
    | false =>
      have h2 : ¬ (60 ≤ s.score) := fun hs => h ⟨hb, hs⟩
      simp [hb, h2]

theorem computeLanes_three : computeLanes 3 = [60, 180, 300] := by
  norm_num [computeLanes, List.range_succ, canvasWidth]

theorem computeLanes_four : computeLanes 4 = [45, 135, 225, 315] := by
  norm_num [computeLanes, List.range_succ, canvasWidth]

end Game

namespace Game

theorem moveLane_eq (direction : ℤ) (s : GameState) :
    moveLane direction s =
      if (min (max ((s.car.lane : ℤ) + direction) 0)
            ((s.laneCount : ℤ) - 1)).toNat ≠ s.car.lane then
        { s with car := { s.car with
            lane := (min (max ((s.car.lane : ℤ) + direction) 0)
              ((s.laneCount : ℤ) - 1)).toNat,
            x := s.lanesX.getD ((min (max ((s.car.lane : ℤ) + direction) 0)
              ((s.laneCount : ℤ) - 1)).toNat) 0 } }
      else s := rfl

theorem moveScore_map (car : Car) (sp : ℚ) (l : List Obstacle) :
    (moveScore car sp l).1 = l.map (fun b => (stepObstacle car sp b).1) ∧
    (moveScore car sp l).2 = (l.map (fun b => (stepObstacle car sp b).2)).sum := by
  induction l with
  | nil => exact ⟨rfl, rfl⟩
  | cons o t ih => simp [moveScore, ih.1, ih.2]

/-- Claim C7: for every starting lane and for direction -1 or +1, the
lane-shift command clamps `car.lane + direction` into `[0, laneCount-1]`,
is a no-op when the clamped lane equals the current one (in particular a
left shift from lane 0 changes nothing), and otherwise moves the car to
the new lane and its center. -/
theorem moveLane_clamp (s : GameState) (direction : ℤ)
    (hdir : direction = -1 ∨ direction = 1) (hl : 1 ≤ s.laneCount) :
    ((moveLane direction s).car.lane : ℤ) =
      min (max ((s.car.lane : ℤ) + direction) 0) ((s.laneCount : ℤ) - 1) ∧
    (moveLane direction s).car.lane < s.laneCount ∧
    ((min (max ((s.car.lane : ℤ) + direction) 0)
        ((s.laneCount : ℤ) - 1)).toNat = s.car.lane →
      moveLane direction s = s) ∧
    ((min (max ((s.car.lane : ℤ) + direction) 0)
        ((s.laneCount : ℤ) - 1)).toNat ≠ s.car.lane →
      (moveLane direction s).car.lane =
        (min (max ((s.car.lane : ℤ) + direction) 0)
          ((s.laneCount : ℤ) - 1)).toNat ∧
      (moveLane direction s).car.x =
        s.lanesX.getD (moveLane direction s).car.lane 0) ∧
    (s.car.lane = 0 → direction = -1 → moveLane direction s = s) := by
  have hC : (1 : ℤ) ≤ (s.laneCount : ℤ) := by exact_mod_cast hl
  have hnn : 0 ≤ min (max ((s.car.lane : ℤ) + direction) 0)
      ((s.laneCount : ℤ) - 1) := by
    apply le_min
    · exact le_max_right _ _
    · omega
  refine ⟨?_, ?_, ?_, ?_, ?_⟩
  · rw [moveLane_eq]
    split
    · exact Int.toNat_of_nonneg hnn
    · rename_i h
      push_neg at h
      omega
  · rw [moveLane_eq]
    split
    · show (min (max ((s.car.lane : ℤ) + direction) 0)
        ((s.laneCount : ℤ) - 1)).toNat < s.laneCount
      omega
    · rename_i h
      push_neg at h
      omega
  · intro h
    rw [moveLane_eq, if_neg (fun hne => hne h)]
  · intro h
    rw [moveLane_eq, if_pos h]
    exact ⟨rfl, rfl⟩
  · intro h0 hdm
    have ht : (min (max ((s.car.lane : ℤ) + direction) 0)
        ((s.laneCount : ℤ) - 1)).toNat = s.car.lane := by omega
    rw [moveLane_eq, if_neg (fun hne => hne ht)]

/-- Claim C2: an obstacle credited as scored by the move-and-score pass of
a step (its score increment is 1) never also satisfies the
rectangle-overlap collision test against the car in that same step. -/
theorem scored_excludes_collision (car : Car) (speed : ℚ) (o : Obstacle)
    (h : (stepObstacle car speed o).2 = 1) :
    rectsIntersect car.rect ((stepObstacle car speed o).1).rect = false := by
  rw [stepObstacle_eq] at h ⊢
  by_cases hc : o.scored = false ∧
      car.y + car.height / 2 < (o.y + speed) - o.height / 2
  · rw [if_pos hc]
    have hy : car.y + car.height / 2 < (o.y + speed) - o.height / 2 := hc.2
    unfold rectsIntersect Car.rect Obstacle.rect
    simp only [Bool.and_eq_false_iff, decide_eq_false_iff_not, not_lt]
    right
    have h1 : (car.height + o.height) / 2 ≤ (o.y + speed) - car.y := by
      linarith
    calc (car.height + o.height) / 2 ≤ (o.y + speed) - car.y := h1
      _ ≤ |(o.y + speed) - car.y| := le_abs_self _
      _ = |car.y - (o.y + speed)| := abs_sub_comm _ _
  · rw [if_neg hc] at h
    exact absurd h (by norm_num)

/-- Claim C10: in the move-and-score pass each obstacle advances by
`speed`; an unscored obstacle flips its `scored` flag exactly when its
bottom edge passes the top edge of the car, contributing exactly one score
point at the flip; an already-scored obstacle stays scored and
contributes nothing; and the total score increment of the pass is the sum of
the per-obstacle increments. -/
theorem scored_flip_once (car : Car) (sp : ℚ) (o : Obstacle)
    (l : List Obstacle) :
    (stepObstacle car sp o).1.y = o.y + sp ∧
    (stepObstacle car sp o).1.lane = o.lane ∧
    (stepObstacle car sp o).1.x = o.x ∧
    ((stepObstacle car sp o).1.scored =
      (o.scored || decide (car.y + car.height / 2 < o.y + sp - o.height / 2))) ∧
    ((stepObstacle car sp o).2 =
      if o.scored = false ∧ car.y + car.height / 2 < o.y + sp - o.height / 2
      then 1 else 0) ∧
    (o.scored = true →
      (stepObstacle car sp o).1.scored = true ∧ (stepObstacle car sp o).2 = 0) ∧
    (moveScore car sp l).1 = l.map (fun b => (stepObstacle car sp b).1) ∧
    (moveScore car sp l).2 = (l.map (fun b => (stepObstacle car sp b).2)).sum := by
  have hstep := stepObstacle_eq car sp o
  by_cases hc : o.scored = false ∧
      car.y + car.height / 2 < (o.y + sp) - o.height / 2
  · rw [if_pos hc] at hstep
    refine ⟨by rw [hstep], by rw [hstep], by rw [hstep], ?_, ?_, ?_,
      (moveScore_map car sp l).1, (moveScore_map car sp l).2⟩
    · rw [hstep]
      simp [hc.1, hc.2]
    · rw [hstep, if_pos hc]
    · intro ht
      rw [hc.1] at ht
      exact absurd ht (by simp)
  · rw [if_neg hc] at hstep
    refine ⟨by rw [hstep], by rw [hstep], by rw [hstep], ?_, ?_, ?_,
      (moveScore_map car sp l).1, (moveScore_map car sp l).2⟩
    · rw [hstep]
      cases hb : o.scored with
      | true => simp
      | false =>
        have h2 : ¬ (car.y + car.height / 2 < o.y + sp - o.height / 2) :=
          fun hy => hc ⟨hb, hy⟩
        simp [h2]
    · rw [hstep, if_neg hc]
    · intro ht
      rw [hstep]
      exact ⟨by simp [ht], rfl⟩

end Game

namespace Game

theorem getD_cons_eraseIdx_perm (l : List ℕ) (i : ℕ) (h : i < l.length) :
    List.Perm (l.getD i 0 :: l.eraseIdx i) l := by
  induction l generalizing i with
  | nil => simp at h
  | cons a t ih =>
    cases i with
    | zero => simp [List.getD]
    | succ j =>
      have hj : j < t.length := by simpa using h
      have step : List.Perm (t.getD j 0 :: a :: t.eraseIdx j)
          (a :: t.getD j 0 :: t.eraseIdx j) := List.Perm.swap a (t.getD j 0) _
      exact step.trans (List.Perm.cons a (ih j hj))

theorem spawnLoop_spec (lanesX : List ℚ) (n : ℕ) :
    ∀ (avail rs : List ℕ), n ≤ avail.length →
      (spawnLoop lanesX n avail rs).1.length = n ∧
      ∃ rest, List.Perm
        (((spawnLoop lanesX n avail rs).1.map Obstacle.lane) ++ rest) avail := by
  induction n with
  | zero =>
    intro avail rs _
    exact ⟨rfl, ⟨avail, by simp [spawnLoop]⟩⟩
  | succ m ih =>
    intro avail rs hn
    have hpos : 0 < avail.length := by omega
    have hidx : (rngNext rs).1 % avail.length < avail.length :=
      Nat.mod_lt _ hpos
    have hlen : (avail.eraseIdx ((rngNext rs).1 % avail.length)).length =
        avail.length - 1 := by
      rw [List.length_eraseIdx]
      simp [hidx]
    have hm : m ≤ (avail.eraseIdx ((rngNext rs).1 % avail.length)).length := by
      omega
    obtain ⟨hl, rest, hperm⟩ :=
      ih (avail.eraseIdx ((rngNext rs).1 % avail.length))
        (spawnSingleObstacle lanesX
          (avail.getD ((rngNext rs).1 % avail.length) 0) (rngNext rs).2).2 hm
    constructor
    · have hcons : (spawnLoop lanesX (m + 1) avail rs).1 =
          (spawnSingleObstacle lanesX
            (avail.getD ((rngNext rs).1 % avail.length) 0) (rngNext rs).2).1 ::
          (spawnLoop lanesX m (avail.eraseIdx ((rngNext rs).1 % avail.length))
            (spawnSingleObstacle lanesX
              (avail.getD ((rngNext rs).1 % avail.length) 0)
              (rngNext rs).2).2).1 := rfl
      rw [hcons, List.length_cons, hl]
    · refine ⟨rest, ?_⟩
      show List.Perm
        ((avail.getD ((rngNext rs).1 % avail.length) 0 ::
          ((spawnLoop lanesX m (avail.eraseIdx ((rngNext rs).1 % avail.length))
            (spawnSingleObstacle lanesX
              (avail.getD ((rngNext rs).1 % avail.length) 0)
              (rngNext rs).2).2).1.map Obstacle.lane)) ++ rest) avail
      rw [List.cons_append]
      exact (List.Perm.cons _ hperm).trans
        (getD_cons_eraseIdx_perm avail _ hidx)

/-- Claim C4: when the spawner gate fires, the timer is reset to `now`
and exactly `min(obstaclesPerSpawn, laneCount)` obstacles are appended,
with pairwise-distinct lanes all inside `[0, laneCount)`. -/
theorem spawn_distinct_lanes (now : ℚ) (w : World)
    (h : w.s.spawnObstacleInterval ≤ now - w.s.lastObstacleSpawn) :
    (spawnStage now w).s.lastObstacleSpawn = now ∧
    ∃ news : List Obstacle,
      (spawnStage now w).s.obstacles = w.s.obstacles ++ news ∧
      news.length = min w.s.obstaclesPerSpawn w.s.laneCount ∧
      (news.map Obstacle.lane).Nodup ∧
      ∀ o ∈ news, o.lane < w.s.laneCount := by
  have hle : min w.s.obstaclesPerSpawn w.s.laneCount ≤
      (List.range w.s.laneCount).length := by
    simp [List.length_range]
  obtain ⟨hlen, rest, hperm⟩ := spawnLoop_spec w.s.lanesX
    (min w.s.obstaclesPerSpawn w.s.laneCount) (List.range w.s.laneCount)
    w.rs hle
  have hnodup : ((spawnLoop w.s.lanesX
      (min w.s.obstaclesPerSpawn w.s.laneCount)
      (List.range w.s.laneCount) w.rs).1.map Obstacle.lane).Nodup := by
    have := (hperm.nodup_iff).2 (List.nodup_range _)
    exact this.of_append_left
  have hmem : ∀ o ∈ (spawnLoop w.s.lanesX
      (min w.s.obstaclesPerSpawn w.s.laneCount)
      (List.range w.s.laneCount) w.rs).1, o.lane < w.s.laneCount := by
    intro o ho
    have h1 : o.lane ∈ ((spawnLoop w.s.lanesX
        (min w.s.obstaclesPerSpawn w.s.laneCount)
        (List.range w.s.laneCount) w.rs).1.map Obstacle.lane) :=
      List.mem_map_of_mem _ ho
    have h2 : o.lane ∈ List.range w.s.laneCount :=
      hperm.mem_iff.1 (List.mem_append_left _ h1)
    simpa using h2
  unfold spawnStage
  rw [if_pos h]
  exact ⟨rfl, (spawnLoop w.s.lanesX (min w.s.obstaclesPerSpawn w.s.laneCount)
    (List.range w.s.laneCount) w.rs).1, rfl, hlen, hnodup, hmem⟩

end Game

namespace Game

theorem mid_keeps (now : ℚ) (w : World) :
    (collideStage (pruneStage (dashStage (moveScoreStage
      (rampStage now (spawnStage now w)))))).s.car = w.s.car ∧
    (collideStage (pruneStage (dashStage (moveScoreStage
      (rampStage now (spawnStage now w)))))).s.laneCount = w.s.laneCount ∧
    (collideStage (pruneStage (dashStage (moveScoreStage
      (rampStage now (spawnStage now w)))))).s.lanesX = w.s.lanesX ∧
    (collideStage (pruneStage (dashStage (moveScoreStage
      (rampStage now (spawnStage now w)))))).s.extraLaneAdded =
        w.s.extraLaneAdded ∧
    (collideStage (pruneStage (dashStage (moveScoreStage
      (rampStage now (spawnStage now w)))))).s.obstaclesPerSpawn =
        w.s.obstaclesPerSpawn := by
  simp [collideStage_keeps, pruneStage_keeps, dashStage_keeps,
        moveScoreStage_eq, rampStage_keeps, spawnStage_keeps]

/-- Claim C3: the escalation fires in a step exactly when `extraLaneAdded`
is still false and the score of the step has reached 60; the firing step sets
`laneCount = 4`, recomputes lane centers, clamps the car lane by
`min(car.lane, 3)` and repositions its x, sets `obstaclesPerSpawn = 2`
and `extraLaneAdded = true`; once `extraLaneAdded` holds, neither a step
nor a lane shift ever changes `laneCount`, `obstaclesPerSpawn` or
`extraLaneAdded` again. -/
theorem escalation_one_shot (now : ℚ) (w : World) (d : ℤ) (t : GameState) :
    ((update now w).s.extraLaneAdded =
      (w.s.extraLaneAdded || decide (60 ≤ (update now w).s.score))) ∧
    (w.s.extraLaneAdded = false → (update now w).s.extraLaneAdded = true →
      (update now w).s.laneCount = 4 ∧
      (update now w).s.obstaclesPerSpawn = 2 ∧
      (update now w).s.lanesX = computeLanes 4 ∧
      (update now w).s.car.lane = min w.s.car.lane 3 ∧
      (update now w).s.car.x = (computeLanes 4).getD (min w.s.car.lane 3) 0) ∧
    (w.s.extraLaneAdded = true →
      (update now w).s.extraLaneAdded = true ∧
      (update now w).s.laneCount = w.s.laneCount ∧
      (update now w).s.obstaclesPerSpawn = w.s.obstaclesPerSpawn) ∧
    ((moveLane d t).laneCount = t.laneCount ∧
     (moveLane d t).obstaclesPerSpawn = t.obstaclesPerSpawn ∧
     (moveLane d t).extraLaneAdded = t.extraLaneAdded) := by
  obtain ⟨hcar, hlc, hlx, hex, hps⟩ := mid_keeps now w
  have hu : update now w = escalateStage (collideStage (pruneStage (dashStage
      (moveScoreStage (rampStage now (spawnStage now w)))))) :=
    update_stages now w
  rw [hu]
  refine ⟨?_, ?_, ?_, ?_⟩
  · show (escalate _).extraLaneAdded =
      (w.s.extraLaneAdded || decide (60 ≤ (escalate _).score))
    rw [escalate_extra, (escalate_keeps _).1, hex]
  · intro h1 h2
    have h2' : (escalate (collideStage (pruneStage (dashStage (moveScoreStage
        (rampStage now (spawnStage now w)))))).s).extraLaneAdded = true := h2
    rw [escalate_extra, hex, h1, Bool.false_or, decide_eq_true_eq] at h2'
    have hcond : (collideStage (pruneStage (dashStage (moveScoreStage
        (rampStage now (spawnStage now w)))))).s.extraLaneAdded = false ∧
        60 ≤ (collideStage (pruneStage (dashStage (moveScoreStage
          (rampStage now (spawnStage now w)))))).s.score :=
      ⟨hex.trans h1, h2'⟩
    show (escalate _).laneCount = 4 ∧ (escalate _).obstaclesPerSpawn = 2 ∧
      (escalate _).lanesX = computeLanes 4 ∧
      (escalate _).car.lane = min w.s.car.lane 3 ∧
      (escalate _).car.x = (computeLanes 4).getD (min w.s.car.lane 3) 0
    rw [escalate_eq, if_pos hcond]
    exact ⟨rfl, rfl, rfl, by rw [← hcar], by rw [← hcar]⟩
  · intro h1
    have hfail : ¬ ((collideStage (pruneStage (dashStage (moveScoreStage
        (rampStage now (spawnStage now w)))))).s.extraLaneAdded = false ∧
        60 ≤ (collideStage (pruneStage (dashStage (moveScoreStage
          (rampStage now (spawnStage now w)))))).s.score) := by
      rw [hex, h1]
      simp
    show (escalate _).extraLaneAdded = true ∧ (escalate _).laneCount =
      w.s.laneCount ∧ (escalate _).obstaclesPerSpawn = w.s.obstaclesPerSpawn
    rw [escalate_eq, if_neg hfail]
    exact ⟨hex.trans h1, hlc, hps⟩
  · rw [moveLane_eq]
    split <;> exact ⟨rfl, rfl, rfl⟩

/-- Claim C5: at game-over the high score is persisted iff the final
run score strictly exceeds the high score loaded at initialization; in that
case the new stored value is the score (so the stored value never
decreases); `initGame` loads the stored value, defaulting to 0. -/
theorem highscore_save_iff (s : GameState) (storage : Option ℕ)
    (hover : s.gameOver = false) (hload : s.highScore = storage.getD 0) :
    (triggerGameOver s storage).2 =
      (if s.highScore < s.score then some s.score else storage) ∧
    (triggerGameOver s storage).1.highScore =
      (if s.highScore < s.score then s.score else s.highScore) ∧
    (triggerGameOver s storage).1.gameOver = true ∧
    storage.getD 0 ≤ ((triggerGameOver s storage).2).getD 0 ∧
    (∀ (now dash : ℚ) (st : Option ℕ),
      (initGame now st dash).highScore = st.getD 0) := by
  rw [triggerGameOver_eq, if_neg (by rw [hover]; exact Bool.false_ne_true)]
  by_cases hlt : s.highScore < s.score
  · rw [if_pos hlt]
    refine ⟨by rw [if_pos hlt], by rw [if_pos hlt], rfl, ?_, fun _ _ _ => rfl⟩
    show storage.getD 0 ≤ (some s.score).getD 0
    rw [← hload]
    simpa using le_of_lt hlt
  · rw [if_neg hlt]
    exact ⟨by rw [if_neg hlt], by rw [if_neg hlt], rfl, le_refl _,
      fun _ _ _ => rfl⟩

/-- Claim C8 (amended): `car.y` is never changed, neither by a step nor by
a lane shift; a step that does not flip `extraLaneAdded` leaves the car
untouched; the escalation step keeps the lane index of the car whenever it was
at most 3. -/
theorem car_mutation (now : ℚ) (w : World) (d : ℤ) (t : GameState) :
    (update now w).s.car.y = w.s.car.y ∧
    (moveLane d t).car.y = t.car.y ∧
    ((update now w).s.extraLaneAdded = w.s.extraLaneAdded →
      (update now w).s.car = w.s.car) ∧
    (w.s.car.lane ≤ 3 → (update now w).s.car.lane = w.s.car.lane) := by
  obtain ⟨hcar, hlc, hlx, hex, hps⟩ := mid_keeps now w
  have hu : update now w = escalateStage (collideStage (pruneStage (dashStage
      (moveScoreStage (rampStage now (spawnStage now w)))))) :=
    update_stages now w
  rw [hu]
  refine ⟨?_, ?_, ?_, ?_⟩
  · show (escalate _).car.y = w.s.car.y
    rw [(escalate_keeps _).2.2.2.2.2.2.2.2, hcar]
  · rw [moveLane_eq]
    split <;> rfl
  · intro hsame
    have hsame2 : (escalate (collideStage (pruneStage (dashStage (moveScoreStage
        (rampStage now (spawnStage now w)))))).s).extraLaneAdded =
        w.s.extraLaneAdded := hsame
    rw [escalate_extra, hex] at hsame2
    show (escalate _).car = w.s.car
    have hfail : ¬ ((collideStage (pruneStage (dashStage (moveScoreStage
        (rampStage now (spawnStage now w)))))).s.extraLaneAdded = false ∧
        60 ≤ (collideStage (pruneStage (dashStage (moveScoreStage
          (rampStage now (spawnStage now w)))))).s.score) := by
      intro hcond
      have hw : w.s.extraLaneAdded = false := hex.symm.trans hcond.1
      rw [hw, Bool.false_or] at hsame2
      have hnot : ¬ (60 ≤ (collideStage (pruneStage (dashStage (moveScoreStage
          (rampStage now (spawnStage now w)))))).s.score) := by
        simpa using hsame2
      exact hnot hcond.2
    rw [escalate_eq, if_neg hfail]
    exact hcar
  · intro hle
    show (escalate _).car.lane = w.s.car.lane
    rw [escalate_eq]
    split
    · show min _ 3 = w.s.car.lane
      rw [hcar]
      omega
    · rw [hcar]

/-- Claim C1 (amended): when the escalation changes `laneCount` from 3 to
4 it recomputes the lane centers, keeps the lane index of the car (clamped by
`min(car.lane, 3)`) and reassigns the car `x` to the new center of that
index, but it leaves every live obstacle untouched — obstacles keep both
their lane index and their previous `x`, which is no longer the center of
their lane; no entity is re-bucketed to a different lane index. -/
theorem escalate_car_reposition (s : GameState)
    (h1 : s.extraLaneAdded = false) (h2 : 60 ≤ s.score) :
    (escalate s).laneCount = 4 ∧
    (escalate s).lanesX = computeLanes 4 ∧
    (escalate s).car.lane = min s.car.lane 3 ∧
    (escalate s).car.x = (computeLanes 4).getD (min s.car.lane 3) 0 ∧
    (escalate s).obstacles = s.obstacles := by
  rw [escalate_eq, if_pos ⟨h1, h2⟩]
  exact ⟨rfl, rfl, rfl, rfl, rfl⟩

end Game

namespace Game

theorem update_speed (now : ℚ) (w : World) :
    (update now w).s.speed =
      (if (5000 : ℚ) ≤ now - w.s.lastSpeedIncrease
        then w.s.speed + 0.5 else w.s.speed) ∧
    (update now w).s.lastSpeedIncrease =
      (if (5000 : ℚ) ≤ now - w.s.lastSpeedIncrease
        then now else w.s.lastSpeedIncrease) := by
  rw [update_stages]
  constructor
  · show (escalate _).speed = _
    rw [(escalate_keeps _).2.1, (collideStage_keeps _).2.2.2.2.1,
        (pruneStage_keeps _).2.2.2.1, (dashStage_keeps _).2.2.2.2.1]
    rw [moveScoreStage_eq]
    show (rampStage now (spawnStage now w)).s.speed = _
    rw [(rampStage_speed now _).1, (spawnStage_keeps now w).2.2.2.1,
        (spawnStage_keeps now w).2.2.2.2.1]
  · show (escalate _).lastSpeedIncrease = _
    rw [(escalate_keeps _).2.2.2.2.2.1, (collideStage_keeps _).2.2.2.2.2.1,
        (pruneStage_keeps _).2.2.2.2.1, (dashStage_keeps _).2.2.2.2.2.1]
    rw [moveScoreStage_eq]
    show (rampStage now (spawnStage now w)).s.lastSpeedIncrease = _
    rw [(rampStage_speed now _).2, (spawnStage_keeps now w).2.2.2.2.1]

theorem runSteps_speed (ts : List ℚ) : ∀ (w : World),
    ∃ k : ℕ, (runSteps ts w).s.speed = w.s.speed + k * 0.5 ∧
      w.s.lastSpeedIncrease + k * 5000 ≤ (runSteps ts w).s.lastSpeedIncrease ∧
      ((runSteps ts w).s.lastSpeedIncrease = w.s.lastSpeedIncrease ∨
        (runSteps ts w).s.lastSpeedIncrease ∈ ts) := by
  induction ts with
  | nil =>
    intro w
    exact ⟨0, by simp [runSteps], by simp [runSteps], Or.inl rfl⟩
  | cons t ts ih =>
    intro w
    have hrun : runSteps (t :: ts) w = runSteps ts (update t w) := rfl
    obtain ⟨k, hs, hl, hm⟩ := ih (update t w)
    by_cases hc : (5000 : ℚ) ≤ t - w.s.lastSpeedIncrease
    · refine ⟨k + 1, ?_, ?_, ?_⟩
      · rw [hrun, hs, (update_speed t w).1, if_pos hc]
        push_cast
        ring
      · rw [hrun]
        have h2 : (update t w).s.lastSpeedIncrease = t :=
          ((update_speed t w).2).trans (if_pos hc)
        rw [h2] at hl
        push_cast
        linarith
      · rw [hrun]
        rcases hm with hm | hm
        · have h2 : (update t w).s.lastSpeedIncrease = t :=
            ((update_speed t w).2).trans (if_pos hc)
          rw [hm, h2]
          exact Or.inr (List.mem_cons_self t ts)
        · exact Or.inr (List.mem_cons_of_mem t hm)
    · have h2 : (update t w).s.lastSpeedIncrease = w.s.lastSpeedIncrease :=
        ((update_speed t w).2).trans (if_neg hc)
      have h3 : (update t w).s.speed = w.s.speed :=
        ((update_speed t w).1).trans (if_neg hc)
      refine ⟨k, ?_, ?_, ?_⟩
      · rw [hrun, hs, h3]
      · rw [hrun]
        rw [h2] at hl
        exact hl
      · rw [hrun]
        rcases hm with hm | hm
        · rw [h2] at hm
          exact Or.inl hm
        · exact Or.inr (List.mem_cons_of_mem t hm)

/-- Claim C6 (amended): within a step, the speed increases by exactly 0.5
iff at least 5000 ms have elapsed since the last increase, and the timer
is then reset to the timestamp of the step itself (not to a multiple of 5000);
consequently, over any sequence of steps whose timestamps stay within
`T` ms of the initial timer, the final speed is `speed + k * 0.5` for
some number of increases `k` with `k * 5000 ≤ T` — an upper bound, with
equality to `floor(T / 5000)` not guaranteed. -/
theorem speed_ramp_bound (now : ℚ) (v : World) (ts : List ℚ) (w : World)
    (T : ℚ) (hT : ∀ t ∈ ts, t ≤ w.s.lastSpeedIncrease + T) (h0 : 0 ≤ T) :
    ((update now v).s.speed =
      (if (5000 : ℚ) ≤ now - v.s.lastSpeedIncrease
        then v.s.speed + 0.5 else v.s.speed)) ∧
    ((update now v).s.lastSpeedIncrease =
      (if (5000 : ℚ) ≤ now - v.s.lastSpeedIncrease
        then now else v.s.lastSpeedIncrease)) ∧
    ∃ k : ℕ, (runSteps ts w).s.speed = w.s.speed + k * 0.5 ∧
      (k : ℚ) * 5000 ≤ T := by
  refine ⟨(update_speed now v).1, (update_speed now v).2, ?_⟩
  obtain ⟨k, hs, hl, hm⟩ := runSteps_speed ts w
  refine ⟨k, hs, ?_⟩
  rcases hm with hm | hm
  · rw [hm] at hl
    linarith
  · have := hT _ hm
    linarith

end Game

namespace Game

theorem stepObstacle_phases (car : Car) (sp : ℚ) (o : Obstacle) :
    stepObstacle car sp o = scoreOne car (moveObstacle sp o) := rfl

theorem moveScore_as_phases (car : Car) (sp : ℚ) (l : List Obstacle) :
    moveScore car sp l = scoreList car (l.map (moveObstacle sp)) := by
  induction l with
  | nil => rfl
  | cons o t ih => simp [moveScore, scoreList, ih, stepObstacle_phases]

/-- Claim C9 (amended): a step executes spawn, then the speed ramp, then
the combined move-and-score pass (equivalent to moving every obstacle and
then running a scoring-only pass), then the dash-offset bookkeeping, then
pruning, then collision detection, and the structural escalation LAST —
after collision detection, reading the score updated in this step — not
first as part of an up-front difficulty-controller invocation. -/
theorem update_stage_order (now : ℚ) (w : World) (car : Car) (sp : ℚ)
    (l : List Obstacle) :
    update now w = escalateStage (collideStage (pruneStage (dashStage
      (moveScoreStage (rampStage now (spawnStage now w)))))) ∧
    moveScore car sp l = scoreList car (l.map (moveObstacle sp)) :=
  ⟨update_stages now w, moveScore_as_phases car sp l⟩

/-- Claim C9 is false as stated: on the concrete state `wEsc` (score 59,
one obstacle scoring this frame) the step of the program fires the escalation
(the score reaches 60 before the end-of-step escalation check), while a
step ordered as the claim demands — difficulty controller before movement
and scoring — does not fire it, leaving 3 lanes. -/
theorem spec_order_differs :
    (update 0 wEsc).s.laneCount = 4 ∧
    (specOrderStep 0 wEsc).s.laneCount = 3 ∧
    update 0 wEsc ≠ specOrderStep 0 wEsc := by
  have h1 : (update 0 wEsc).s.laneCount = 4 := by
    norm_num [update, wEsc, moveScore, stepObstacle, escalate, rectsIntersect,
      Car.rect, Obstacle.rect, computeLanes_three, computeLanes_four,
      canvasHeight, canvasWidth, List.filter, List.any]
  have h2 : (specOrderStep 0 wEsc).s.laneCount = 3 := by
    norm_num [specOrderStep, spawnStage, rampStage, escalateStage, escalate,
      moveStage, scoreStage, scoreOne, scoreList, moveObstacle, pruneStage,
      collideStage, triggerGameOver, rectsIntersect, Car.rect, Obstacle.rect,
      wEsc, computeLanes_three, canvasHeight, canvasWidth, List.filter,
      List.any, List.map]
  refine ⟨h1, h2, fun heq => ?_⟩
  rw [heq, h2] at h1
  exact absurd h1 (by norm_num)

/-- Claim C1 is false as stated: on `wEsc` the step changes `laneCount`
from 3 to 4, the live obstacle keeps its lane index 0 (still valid), yet
its stored `x` remains 60, the old 3-lane center, while the new center of
lane 0 is 45 — the obstacle `x` is not reassigned. -/
theorem obstacle_x_not_recomputed :
    (update 0 wEsc).s.laneCount = 4 ∧
    (update 0 wEsc).s.obstacles.map Obstacle.lane = [0] ∧
    (update 0 wEsc).s.obstacles.map Obstacle.x = [60] ∧
    (update 0 wEsc).s.lanesX.getD 0 0 = 45 ∧
    ((60 : ℚ) ≠ 45) := by
  refine ⟨?_, ?_, ?_, ?_, by norm_num⟩ <;>
    norm_num [update, wEsc, moveScore, stepObstacle, escalate, rectsIntersect,
      Car.rect, Obstacle.rect, computeLanes_three, computeLanes_four,
      canvasHeight, canvasWidth, List.filter, List.any]

/-- Claim C8 is false as stated: the simulation step itself (not a
lane-shift command) changes `car.x` when the escalation fires — on `wEsc`
the step moves the car `x` from 180 (3-lane center of lane 1) to 135
(4-lane center of lane 1). -/
theorem update_changes_car_x :
    wEsc.s.car.x = 180 ∧
    (update 0 wEsc).s.car.x = 135 ∧
    (update 0 wEsc).s.car.x ≠ wEsc.s.car.x := by
  refine ⟨by norm_num [wEsc], ?_, ?_⟩ <;>
    norm_num [update, wEsc, moveScore, stepObstacle, escalate, rectsIntersect,
      Car.rect, Obstacle.rect, computeLanes_three, computeLanes_four,
      canvasHeight, canvasWidth, List.filter, List.any]

/-- Claim C6 is false as stated: stepping at times 4999, 9998 and 14997
(every step within the claimed continuous-run regime) yields speed 3.5
after T = 14997 ms, whereas the claimed formula `base + 0.5*floor(T/5000)`
gives 4: the timer resets to the timestamp of the step itself, so increases can
lag the wall-clock formula. -/
theorem speed_formula_fails :
    wInit.s.speed = 3 ∧
    wInit.s.lastSpeedIncrease = 0 ∧
    (runSteps [4999, 9998, 14997] wInit).s.speed = 3.5 ∧
    (3 : ℚ) + 0.5 * ((⌊((14997 : ℚ) - 0) / 5000⌋ : ℤ) : ℚ) = 4 ∧
    ((3.5 : ℚ) ≠ 4) := by
  refine ⟨by norm_num [wInit, initGame], by norm_num [wInit, initGame],
    ?_, ?_, by norm_num⟩
  · norm_num [runSteps, update, wInit, initGame, moveScore, stepObstacle,
      escalate, rectsIntersect, Car.rect, Obstacle.rect, computeLanes_three,
      canvasHeight, canvasWidth, carWidth, carHeight, obstacleWidth,
      obstacleHeight, List.filter, List.any, spawnObstacle, spawnLoop,
      spawnSingleObstacle, rngNext, obstacleColors, List.range_succ,
      List.eraseIdx]
  · norm_num [Int.floor_eq_iff]

theorem scored_excludes_collision_witness :
    rectsIntersect (Car.mk 1 180 520 60 100 "#4287f5").rect
      ((stepObstacle (Car.mk 1 180 520 60 100 "#4287f5") 3
        (Obstacle.mk 0 60 620 80 80 "#ef476f" false)).1).rect = false :=
  scored_excludes_collision (Car.mk 1 180 520 60 100 "#4287f5") 3
    (Obstacle.mk 0 60 620 80 80 "#ef476f" false)
    (by norm_num [stepObstacle_eq])

theorem escalation_one_shot_witness :
    (update 0 wEsc).s.laneCount = 4 ∧
    (update 0 wEsc).s.obstaclesPerSpawn = 2 ∧
    (update 0 wEsc).s.lanesX = computeLanes 4 ∧
    (update 0 wEsc).s.car.lane = min wEsc.s.car.lane 3 ∧
    (update 0 wEsc).s.car.x = (computeLanes 4).getD (min wEsc.s.car.lane 3) 0 :=
  (escalation_one_shot 0 wEsc 1 wEsc.s).2.1 (by norm_num [wEsc])
    (by norm_num [update, wEsc, moveScore, stepObstacle, escalate,
      rectsIntersect, Car.rect, Obstacle.rect, computeLanes_three,
      computeLanes_four, canvasHeight, canvasWidth, List.filter, List.any])

theorem spawn_distinct_lanes_witness :
    (spawnStage 1000 wInit).s.lastObstacleSpawn = 1000 ∧
    ∃ news : List Obstacle,
      (spawnStage 1000 wInit).s.obstacles = wInit.s.obstacles ++ news ∧
      news.length = min wInit.s.obstaclesPerSpawn wInit.s.laneCount ∧
      (news.map Obstacle.lane).Nodup ∧
      ∀ o ∈ news, o.lane < wInit.s.laneCount :=
  spawn_distinct_lanes 1000 wInit (by norm_num [wInit, initGame])

theorem highscore_save_iff_witness :
    (triggerGameOver { wEsc.s with score := 61, highScore := 10 }
      (some 10)).2 = some 61 := by
  have h := highscore_save_iff { wEsc.s with score := 61, highScore := 10 }
    (some 10) (by norm_num [wEsc]) (by norm_num [wEsc])
  rw [h.1]
  norm_num

theorem speed_ramp_bound_witness :
    ∃ k : ℕ, (runSteps [5000] wInit).s.speed = wInit.s.speed + k * 0.5 ∧
      (k : ℚ) * 5000 ≤ 5000 :=
  (speed_ramp_bound 0 wInit [5000] wInit 5000
    (by intro t ht
        simp only [List.mem_singleton] at ht
        subst ht
        norm_num [wInit, initGame])
    (by norm_num)).2.2

theorem moveLane_clamp_witness :
    (moveLane (-1) wEsc.s).car.lane < wEsc.s.laneCount :=
  (moveLane_clamp wEsc.s (-1) (Or.inl rfl) (by norm_num [wEsc])).2.1

theorem car_mutation_witness :
    (update 0 wInit).s.car = wInit.s.car ∧
    (update 0 wInit).s.car.lane = wInit.s.car.lane :=
  ⟨(car_mutation 0 wInit 1 wInit.s).2.2.1
      (by norm_num [update, wInit, initGame, moveScore, escalate,
        rectsIntersect, Car.rect, computeLanes_three, canvasHeight,
        canvasWidth, List.filter, List.any]),
   (car_mutation 0 wInit 1 wInit.s).2.2.2
      (by norm_num [wInit, initGame, computeLanes_three])⟩

theorem scored_flip_once_witness :
    (stepObstacle (Car.mk 1 180 520 60 100 "#4287f5") 3
      (Obstacle.mk 0 60 620 80 80 "#ef476f" true)).1.scored = true ∧
    (stepObstacle (Car.mk 1 180 520 60 100 "#4287f5") 3
      (Obstacle.mk 0 60 620 80 80 "#ef476f" true)).2 = 0 :=
  (scored_flip_once (Car.mk 1 180 520 60 100 "#4287f5") 3
    (Obstacle.mk 0 60 620 80 80 "#ef476f" true) []).2.2.2.2.2.1 rfl

theorem escalate_car_reposition_witness :
    (escalate { wEsc.s with score := 60 }).laneCount = 4 ∧
    (escalate { wEsc.s with score := 60 }).obstacles =
      ({ wEsc.s with score := 60 } : GameState).obstacles := by
  have h := escalate_car_reposition { wEsc.s with score := 60 }
    (by norm_num [wEsc]) (by norm_num [wEsc])
  exact ⟨h.1, h.2.2.2.2⟩

end Game
